import Mathlib

/-!
Verification of the token management and authentication middleware subsystem
of the go-service-api repository, as a shallow embedding in Lean 4.

Embedding conventions:
- Machine time is modelled as `Int` Unix seconds; Go `time.Duration` values
  are modelled in whole seconds (the configured durations only ever reach the
  embedded code as an added offset and as `Duration.Seconds()`).
- `uuid.UUID` (a 16-byte value from the external google/uuid collaborator) is
  modelled as an abstract value with decidable equality and a zero element,
  mirroring `uuid.UUID` as an opaque identifier the subsystem never inspects.
- The external JWS codec (golang-jwt library) serialises a header/claims/
  signature triple into a compact dot-delimited string.  The embedding works
  with the parsed form: `SignedToken` is the structured token, and `TokenStr`
  is the wire-level value of a token string, which is either the encoding of
  a well-formed signed token or junk that fails parsing.  HMAC signing is
  modelled as an ideal MAC: a signature records the algorithm, key and signed
  payload, and verification is equality with the recomputed signature, which
  captures exactly the guarantee the library relies on.
-/

/-- Models `uuid.UUID` from google/uuid: an opaque identifier with decidable
equality.  `UUID.zero` models the zero value `uuid.UUID{}`. -/
structure UUID where
  val : Nat
deriving DecidableEq, Repr

/-- The zero value `uuid.UUID{}` returned by `GetUserIDFromContext` on error. -/
def UUID.zero : UUID := ⟨0⟩

/-- JOSE header algorithms relevant to the golang-jwt `SigningMethod`
registry.  `HS256`, `HS384`, `HS512` are the `*jwt.SigningMethodHMAC`
instances; the others are non-HMAC methods that the method check in the
validators rejects. -/
inductive Alg
  | HS256
  | HS384
  | HS512
  | RS256
  | ES256
  | algNone
deriving DecidableEq, Repr

/-- The type assertion `token.Method.(*jwt.SigningMethodHMAC)` in both
validators: true exactly for the HMAC family. -/
def Alg.isHMAC : Alg → Bool
  | .HS256 => true
  | .HS384 => true
  | .HS512 => true
  | _ => false

/-- Models `jwt.RegisteredClaims` restricted to the fields this subsystem
sets and checks: `exp`, `iat`, `nbf` as numeric dates (Unix seconds), `iss`,
and `aud` as a list of strings (`jwt.ClaimStrings`). -/
structure RegisteredClaims where
  expiresAt : Int
  issuedAt : Int
  notBefore : Int
  issuer : String
  audience : List String
deriving DecidableEq, Repr

/-- Models both `token.Claims` and `token.RefreshTokenClaims` from
`internal/security/token/token.go`: the two Go structs have identical fields
(`user_id` plus the embedded registered claims) and identical JSON encoding,
so a single structure represents the payload of either token kind. -/
structure Claims where
  userID : UUID
  reg : RegisteredClaims
deriving DecidableEq, Repr

/-- An ideal-MAC signature value: the algorithm, key and payload it was
computed over.  Verification of a wire signature is equality with the
recomputed `Signature`. -/
structure Signature where
  alg : Alg
  key : String
  signed : Claims
deriving DecidableEq, Repr

/-- Computing the signature, as in `token.SignedString(secret)`: sign the
payload with the declared algorithm and the given key. -/
def hmacSign (alg : Alg) (key : String) (c : Claims) : Signature :=
  { alg := alg, key := key, signed := c }

/-- The parsed form of a compact JWS token string: declared algorithm,
payload claims, and the attached signature. -/
structure SignedToken where
  alg : Alg
  claims : Claims
  sig : Signature
deriving DecidableEq, Repr

/-- The wire-level value of a token string: either the encoding of a
well-formed signed token, or a string the JWS codec fails to parse. -/
inductive TokenStr
  | junk (raw : String)
  | tok (t : SignedToken)
deriving DecidableEq, Repr

/-- Models `token.TokenConfig`: secret key, access and refresh durations
(in seconds), issuer. -/
structure TokenConfig where
  SecretKey : String
  ExpirationTime : Int
  RefreshDuration : Int
  Issuer : String
deriving DecidableEq, Repr

/-- The data-model invariant on a token configuration from the spec:
non-empty secret, strictly positive durations, non-empty issuer. -/
def TokenConfig.invariant (c : TokenConfig) : Prop :=
  c.SecretKey ≠ "" ∧ 0 < c.ExpirationTime ∧ 0 < c.RefreshDuration ∧ c.Issuer ≠ ""

/-- Models `token.TokenManager`: owns an immutable configuration. -/
structure TokenManager where
  config : TokenConfig
deriving DecidableEq, Repr

/-- Errors a validation can produce.  The Go code wraps them all into
`error` values; the constructors record which check failed:
`parseFailure` = the string is not a well-formed token;
`unexpectedSigningMethod` = the keyfunc rejected a non-HMAC method;
`badSignature` = signature verification failed;
`expired` / `notYetValid` = the registered-claims checks on `exp` / `nbf`;
`invalidIssuer` / `invalidAudience` = the explicit post-parse checks. -/
inductive TokenError
  | parseFailure
  | unexpectedSigningMethod
  | badSignature
  | expired
  | notYetValid
  | invalidIssuer
  | invalidAudience
deriving DecidableEq, Repr

/-- The audience scan in both validators: the Go `for` loop over
`claims.Audience` setting `found` when an entry equals the target string. -/
def audContains : List String → String → Bool
  | [], _ => false
  | aud :: rest, target => if aud = target then true else audContains rest target

/-- Models `TokenManager.GenerateAccessToken` (token.go lines 74-96): claims
carry the user id, `exp = now + ExpirationTime`, `iat = nbf = now`,
`iss = config.Issuer`, `aud = [config.Issuer ++ "-users"]`; the token is
signed with HS256 under the configured secret.  Signing with a static HMAC
key cannot fail, so the Go `error` result is omitted. -/
def GenerateAccessToken (tm : TokenManager) (now : Int) (userID : UUID) : SignedToken :=
  let claims : Claims :=
    { userID := userID
      reg :=
        { expiresAt := now + tm.config.ExpirationTime
          issuedAt := now
          notBefore := now
          issuer := tm.config.Issuer
          audience := [tm.config.Issuer ++ "-users"] } }
  { alg := .HS256, claims := claims, sig := hmacSign .HS256 tm.config.SecretKey claims }

/-- Models `TokenManager.GenerateRefreshToken` (token.go lines 99-121): as
the access generator but `exp = now + RefreshDuration` and
`aud = [config.Issuer ++ "-refresh"]`. -/
def GenerateRefreshToken (tm : TokenManager) (now : Int) (userID : UUID) : SignedToken :=
  let claims : Claims :=
    { userID := userID
      reg :=
        { expiresAt := now + tm.config.RefreshDuration
          issuedAt := now
          notBefore := now
          issuer := tm.config.Issuer
          audience := [tm.config.Issuer ++ "-refresh"] } }
  { alg := .HS256, claims := claims, sig := hmacSign .HS256 tm.config.SecretKey claims }

/-- Models `TokenManager.ValidateAccessToken` (token.go lines 124-164).
`jwt.ParseWithClaims` fails on malformed strings; the keyfunc rejects
non-HMAC methods; the library verifies the signature with the declared
method and the returned secret, then checks `exp` (valid iff now < exp) and
`nbf` (valid iff nbf ≤ now); the function then re-checks the issuer and
requires the audience list to contain the literal string
"go-service-api-users" (note: a string constant, not derived from the
configured issuer). -/
def ValidateAccessToken (tm : TokenManager) (now : Int) : TokenStr → Except TokenError Claims
  | .junk _ => .error .parseFailure
  | .tok t =>
    if t.alg.isHMAC = false then .error .unexpectedSigningMethod
    else if t.sig ≠ hmacSign t.alg tm.config.SecretKey t.claims then .error .badSignature
    else if t.claims.reg.expiresAt ≤ now then .error .expired
    else if now < t.claims.reg.notBefore then .error .notYetValid
    else if t.claims.reg.issuer ≠ tm.config.Issuer then .error .invalidIssuer
    else if audContains t.claims.reg.audience "go-service-api-users" then .ok t.claims
    else .error .invalidAudience

/-- Models `TokenManager.ValidateRefreshToken` (token.go lines 167-207):
identical to the access validator except the audience check looks for the
literal string "go-service-api-refresh". -/
def ValidateRefreshToken (tm : TokenManager) (now : Int) : TokenStr → Except TokenError Claims
  | .junk _ => .error .parseFailure
  | .tok t =>
    if t.alg.isHMAC = false then .error .unexpectedSigningMethod
    else if t.sig ≠ hmacSign t.alg tm.config.SecretKey t.claims then .error .badSignature
    else if t.claims.reg.expiresAt ≤ now then .error .expired
    else if now < t.claims.reg.notBefore then .error .notYetValid
    else if t.claims.reg.issuer ≠ tm.config.Issuer then .error .invalidIssuer
    else if audContains t.claims.reg.audience "go-service-api-refresh" then .ok t.claims
    else .error .invalidAudience

/-- True on `Except.error` results: "validation rejects the token". -/
def isErr : Except TokenError Claims → Bool
  | .error _ => true
  | .ok _ => false

/-- Models `token.TokenPair`: the response DTO.  The two token strings are
wire-level token values. -/
structure TokenPair where
  AccessToken : TokenStr
  RefreshToken : TokenStr
  TokenType : String
  ExpiresIn : Int
deriving DecidableEq, Repr

/-- Finds the first space in a character list, returning the part before it
and the part after it; `none` when the list has no space.  This is the
single-separator search underlying `strings.SplitN(s, " ", 2)`. -/
def breakAtSpace : List Char → Option (List Char × List Char)
  | [] => none
  | c :: cs =>
    if c = ' ' then some ([], cs)
    else
      match breakAtSpace cs with
      | none => none
      | some (a, b) => some (c :: a, b)

/-- Models Go `strings.SplitN(s, " ", 2)`: when `s` contains a space, the
result is the substring before the first space and everything after it
(which may itself contain spaces); otherwise the one-element list `[s]`. -/
def splitN2Space (s : String) : List String :=
  match breakAtSpace s.data with
  | none => [s]
  | some (a, b) => [String.mk a, String.mk b]

/-- Models `extractBearerToken` (auth_middleware.go lines 64-75): split the
header at the first space into at most two parts; error unless there are
exactly two parts and the first is literally "Bearer"; error when the second
part is empty; otherwise return the second part. -/
def extractBearerToken (authHeader : String) : Except String String :=
  match splitN2Space authHeader with
  | [p0, p1] =>
    if p0 ≠ "Bearer" then .error "invalid bearer token format"
    else if p1 = "" then .error "empty token"
    else .ok p1
  | _ => .error "invalid bearer token format"

/-- A dynamically typed value stored in the request-scoped store
(`c.Locals` holds `any`): the constructors record the runtime type tag that
the type assertion in `GetUserIDFromContext` inspects. -/
inductive GoVal
  | vUUID (u : UUID)
  | vStr (s : String)
  | vInt (n : Int)
deriving DecidableEq, Repr

/-- The request-scoped key/value store behind `c.Locals`. -/
abbrev Locals := List (String × GoVal)

/-- Lookup in the request-scoped store; `none` models `c.Locals(key) == nil`. -/
def localsGet (l : Locals) (key : String) : Option GoVal :=
  match l with
  | [] => none
  | (k, v) :: rest => if k = key then some v else localsGet rest key

/-- Setting a key in the request-scoped store (`c.Locals(key, value)`). -/
def localsSet (l : Locals) (key : String) (v : GoVal) : Locals :=
  (key, v) :: l

/-- Models `middleware.ErrorResponse`: the uniform error body. -/
structure ErrorResponse where
  Error : String
  Message : String
  Code : Nat
deriving DecidableEq, Repr

/-- An HTTP response body produced by this subsystem: either the uniform
error body or a token pair. -/
inductive Body
  | err (e : ErrorResponse)
  | pair (p : TokenPair)
deriving DecidableEq, Repr

/-- An HTTP response: status code and body. -/
structure Response where
  status : Nat
  body : Body
deriving DecidableEq, Repr

/-- Models `middleware.AuthErrorResponse` (error_middleware.go lines
100-106): status 401 with body `{error: "unauthorized", message: msg,
code: 401}`. -/
def AuthErrorResponse (msg : String) : Response :=
  { status := 401, body := .err { Error := "unauthorized", Message := msg, Code := 401 } }

/-- Models `middleware.ValidationErrorResponse`: status 400 with body
`{error: "validation_error", message: msg, code: 400}`. -/
def ValidationErrorResponse (msg : String) : Response :=
  { status := 400, body := .err { Error := "validation_error", Message := msg, Code := 400 } }

/-- Models `middleware.InternalErrorResponse`: status 500 with body
`{error: "internal_error", message: msg, code: 500}`. -/
def InternalErrorResponse (msg : String) : Response :=
  { status := 500, body := .err { Error := "internal_error", Message := msg, Code := 500 } }

/-- The part of a request the authentication middleware reads and writes:
the raw Authorization header (`none` when the header is absent), the
request-scoped store, and the wire decoding `wireOf` of candidate token
strings — the external JWS codec collaborator, mapping each extracted
substring to the wire token it encodes (a string that is not the encoding
of a signed token decodes to junk). -/
structure Request where
  authHeader : Option String
  locals : Locals
  wireOf : String → TokenStr

/-- The observable outcome of running the middleware on a request:
`reject resp l` = the middleware returned an error response without calling
`c.Next()`, leaving the store at `l`; `proceed l` = the middleware called
`c.Next()` (the downstream handler runs) with the store at `l`. -/
inductive MwOutcome
  | reject (resp : Response) (locals : Locals)
  | proceed (locals : Locals)
deriving DecidableEq

/-- The request-scoped store an outcome leaves behind. -/
def MwOutcome.finalLocals : MwOutcome → Locals
  | .reject _ l => l
  | .proceed l => l

/-- Whether the downstream handler is invoked. -/
def MwOutcome.isProceed : MwOutcome → Bool
  | .reject _ _ => false
  | .proceed _ => true

/-- Models the handler returned by `middleware.AuthMiddleware` (lines
19-61).  `c.Get("Authorization", "")` yields "" both when the header is
absent and when it is empty, so both cases take the missing-header path.
On success the validated subject is stored under `ContextKeyUserID`
("user_id") and `c.Next()` is called. -/
def AuthMiddleware (tm : TokenManager) (now : Int) (req : Request) : MwOutcome :=
  let authHeader := req.authHeader.getD ""
  if authHeader = "" then
    .reject (AuthErrorResponse "missing authorization header") req.locals
  else
    match extractBearerToken authHeader with
    | .error _ => .reject (AuthErrorResponse "invalid authorization header format") req.locals
    | .ok tokenString =>
      match ValidateAccessToken tm now (req.wireOf tokenString) with
      | .error _ => .reject (AuthErrorResponse "invalid or expired access token") req.locals
      | .ok claims => .proceed (localsSet req.locals "user_id" (.vUUID claims.userID))

/-- Models `middleware.GetUserIDFromContext` (auth_middleware.go lines
78-90).  Go returns the pair `(uuid.UUID, error)`; the embedding returns
the identity together with `none` on success or `some msg` with the error
message; on either error the identity is the zero UUID. -/
def GetUserIDFromContext (locals : Locals) : UUID × Option String :=
  match localsGet locals "user_id" with
  | none => (UUID.zero, some "user_id not found in context")
  | some val =>
    match val with
    | .vUUID userID => (userID, none)
    | _ => (UUID.zero, some "invalid user_id type in context")

/-- Models `refreshtoken.RefreshTokenRequest`: the parsed refresh request
body, whose `refresh_token` field is a wire-level token value. -/
structure RefreshTokenRequest where
  RefreshToken : TokenStr
deriving DecidableEq, Repr

/-- The result of `c.Bind().Body(&req)`: either the body fails to bind, or
it yields a parsed request. -/
inductive RefreshBody
  | invalid
  | valid (req : RefreshTokenRequest)
deriving DecidableEq, Repr

/-- Models the handler returned by `refreshtoken.RefreshTokenHandler`
(the refresh flow): reject unbindable bodies with 400; validate the
submitted refresh token, rejecting failures with 401 and message "invalid
or expired refresh token"; on success generate a fresh access token for the
validated subject and answer 200 with a pair that reuses the submitted
refresh token verbatim, token type "Bearer" and `expires_in` equal to the
configured access duration in seconds.  (The handler constructs its
`TokenManager` from the same configuration; generation with a static HMAC
key cannot fail, so the 500 branch is unreachable in the model.) -/
def RefreshTokenHandler (tm : TokenManager) (now : Int) (body : RefreshBody) : Response :=
  match body with
  | .invalid => ValidationErrorResponse "invalid request body"
  | .valid req =>
    match ValidateRefreshToken tm now req.RefreshToken with
    | .error _ => AuthErrorResponse "invalid or expired refresh token"
    | .ok claims =>
      let newAccessToken := GenerateAccessToken tm now claims.userID
      { status := 200
        body := .pair
          { AccessToken := .tok newAccessToken
            RefreshToken := req.RefreshToken
            TokenType := "Bearer"
            ExpiresIn := tm.config.ExpirationTime } }

/-- A manager whose configured issuer is the default "go-service-api". -/
def defaultTM : TokenManager := ⟨⟨"k", 3600, 86400, "go-service-api"⟩⟩

/-- A manager with the invariant-satisfying configuration from the spec
scenario: issuer "svc", secret "k", durations 3600 and 86400 seconds. -/
def svcTM : TokenManager := ⟨⟨"k", 3600, 86400, "svc"⟩⟩

/-- Claims accepted by ValidateRefreshToken under `svcTM`: issuer "svc" as
configured, audience carrying the constant the validator looks for. -/
def craftedRefreshClaims : Claims :=
  ⟨⟨1⟩, ⟨100, 0, 0, "svc", ["go-service-api-refresh"]⟩⟩

/-- A well-signed HS256 token over `craftedRefreshClaims` under secret "k". -/
def craftedRefreshToken : SignedToken :=
  ⟨.HS256, craftedRefreshClaims, hmacSign .HS256 "k" craftedRefreshClaims⟩

/-- Claims that pass every check of ValidateAccessToken under `defaultTM`. -/
def hs384Claims : Claims :=
  ⟨⟨1⟩, ⟨100, 0, 0, "go-service-api", ["go-service-api-users"]⟩⟩

/-- A token declaring HS384 in its header, carrying a signature that
verifies under the configured secret "k" with the declared algorithm. -/
def hs384Token : SignedToken :=
  ⟨.HS384, hs384Claims, hmacSign .HS384 "k" hs384Claims⟩

/-- A request carrying "Authorization: Bearer T" where the substring "T"
encodes the access token generated for user ⟨1⟩ at time 0 under `svcTM`. -/
def svcBearerReq : Request :=
  { authHeader := some "Bearer T"
    locals := []
    wireOf := fun s => if s = "T" then .tok (GenerateAccessToken svcTM 0 ⟨1⟩) else .junk s }

/-- Spec-side definition, following the words of claim C5: split a string
into its maximal runs of non-space characters (whitespace-separated
tokens).  Used only to state what the claim asserts, for comparison with
`extractBearerToken` as implemented. -/
def specWhitespaceFieldsAux : List Char → List Char → List String
  | [], acc => if acc = [] then [] else [String.mk acc.reverse]
  | c :: cs, acc =>
    if c = ' ' then
      if acc = [] then specWhitespaceFieldsAux cs []
      else String.mk acc.reverse :: specWhitespaceFieldsAux cs []
    else specWhitespaceFieldsAux cs (c :: acc)

/-- Spec-side definition: the whitespace-separated tokens of a string. -/
def specWhitespaceFields (s : String) : List String :=
  specWhitespaceFieldsAux s.data []

/-- Spec-side definition, following the words of claim C5: the set of
header strings the claim says `extractBearerToken` accepts — exactly two
whitespace-separated tokens, the first literally "Bearer", the second
non-empty. -/
def specExactlyTwoBearerTokens (s : String) : Bool :=
  match specWhitespaceFields s with
  | [w, t] => w == "Bearer" && !(t == "")
  | _ => false

example :
    ValidateAccessToken ⟨⟨"k", 3600, 86400, "go-service-api"⟩⟩ 1
      (.tok (GenerateAccessToken ⟨⟨"k", 3600, 86400, "go-service-api"⟩⟩ 0 ⟨7⟩)) =
    .ok ⟨⟨7⟩, ⟨3600, 0, 0, "go-service-api", ["go-service-api-users"]⟩⟩ := by rfl

example :
    isErr (ValidateAccessToken ⟨⟨"k", 3600, 86400, "svc"⟩⟩ 1
      (.tok (GenerateAccessToken ⟨⟨"k", 3600, 86400, "svc"⟩⟩ 0 ⟨7⟩))) = true := by rfl

example : extractBearerToken "Bearer abc" = .ok "abc" := by rfl

example : extractBearerToken "Bearer x y" = .ok "x y" := by rfl

example : extractBearerToken "Bearer" = .error "invalid bearer token format" := by rfl

example : extractBearerToken "Bearer " = .error "empty token" := by rfl

example : extractBearerToken "" = .error "invalid bearer token format" := by rfl

example : extractBearerToken "Basic xyz" = .error "invalid bearer token format" := by rfl

/-- No issuer makes the generated refresh audience equal the constant the
access validator looks for: the two strings end differently. -/
theorem refresh_aud_ne_users_const (s : String) :
    s ++ "-refresh" ≠ "go-service-api-users" := by
  intro h
  have h0 := congrArg String.data h
  rw [String.data_append] at h0
  have h1 : s.data ++ "-refresh".data = "go-service-a".data ++ "pi-users".data := h0
  have h2 := List.append_inj' h1 (by decide)
  exact absurd h2.2 (by decide)

/-- No issuer makes the generated access audience equal the constant the
refresh validator looks for. -/
theorem users_aud_ne_refresh_const (s : String) :
    s ++ "-users" ≠ "go-service-api-refresh" := by
  intro h
  have h0 := congrArg String.data h
  rw [String.data_append] at h0
  have h1 : s.data ++ "-users".data = "go-service-api-r".data ++ "efresh".data := h0
  have h2 := List.append_inj' h1 (by decide)
  exact absurd h2.2 (by decide)

/-- Claim C1 (code bug): for the invariant-satisfying configuration with
secret "k", durations 3600 and 86400 seconds and issuer "svc", the access
token generated for user ⟨1⟩ at time 0 is rejected by ValidateAccessToken
at time 1 — before its expiry at 3600 — with an invalid-audience error: the
validator compares the audience list against the constant
"go-service-api-users" instead of the configured issuer plus "-users", so
the round trip the claim asserts fails for every issuer other than
"go-service-api". -/
theorem C1_roundtrip_fails_for_nondefault_issuer :
    TokenConfig.invariant svcTM.config ∧
    (GenerateAccessToken svcTM 0 ⟨1⟩).claims.reg.expiresAt = 3600 ∧
    ValidateAccessToken svcTM 1 (.tok (GenerateAccessToken svcTM 0 ⟨1⟩)) =
      .error .invalidAudience :=
  ⟨⟨by decide, by decide, by decide, by decide⟩, rfl, rfl⟩

/-- Claim C2: under any invariant-satisfying configuration, a refresh token
is rejected by ValidateAccessToken of the same manager and an access token
is rejected by ValidateRefreshToken, at every validation time (in
particular before either expiry): the singleton audience written at
issuance never contains the constant the other validator scans for. -/
theorem C2_cross_use_always_rejected (tm : TokenManager) (now now' : Int) (u : UUID)
    (_hinv : tm.config.invariant) :
    isErr (ValidateAccessToken tm now' (.tok (GenerateRefreshToken tm now u))) = true ∧
    isErr (ValidateRefreshToken tm now' (.tok (GenerateAccessToken tm now u))) = true := by
  constructor
  · simp only [ValidateAccessToken, GenerateRefreshToken, Alg.isHMAC, hmacSign, audContains]
    simp [refresh_aud_ne_users_const tm.config.Issuer]
    split <;> first | rfl | (split <;> rfl)
  · simp only [ValidateRefreshToken, GenerateAccessToken, Alg.isHMAC, hmacSign, audContains]
    simp [users_aud_ne_refresh_const tm.config.Issuer]
    split <;> first | rfl | (split <;> rfl)

/-- Witness for C2 at the spec scenario configuration (issuer "svc"),
generation at time 0, validation at time 1, user ⟨1⟩. -/
theorem C2_witness :
    isErr (ValidateAccessToken svcTM 1 (.tok (GenerateRefreshToken svcTM 0 ⟨1⟩))) = true ∧
    isErr (ValidateRefreshToken svcTM 1 (.tok (GenerateAccessToken svcTM 0 ⟨1⟩))) = true :=
  C2_cross_use_always_rejected svcTM 0 1 ⟨1⟩ ⟨by decide, by decide, by decide, by decide⟩

/-- Counterexample to claim C3: this token declares HS384 — an algorithm
other than the HMAC-SHA256 scheme used at issuance — yet ValidateAccessToken
accepts it: the method check only requires membership in the HMAC family,
and the signature verifies under the configured secret with the declared
algorithm. -/
theorem C3_counterexample_hs384_accepted :
    hs384Token.alg ≠ Alg.HS256 ∧
    hs384Token.sig = hmacSign hs384Token.alg defaultTM.config.SecretKey hs384Token.claims ∧
    ValidateAccessToken defaultTM 1 (.tok hs384Token) = .ok hs384Claims :=
  ⟨by decide, rfl, rfl⟩

/-- Claim C3 as amended: both validators reject every token whose header
declares an algorithm outside the HMAC family (HS256/HS384/HS512) with the
unexpected-signing-method error, regardless of the signature; tokens
declaring any HMAC-family algorithm pass the method check. -/
theorem C3_amended_non_hmac_rejected (tm : TokenManager) (now : Int) (t : SignedToken)
    (h : t.alg.isHMAC = false) :
    ValidateAccessToken tm now (.tok t) = .error .unexpectedSigningMethod ∧
    ValidateRefreshToken tm now (.tok t) = .error .unexpectedSigningMethod := by
  constructor
  · simp [ValidateAccessToken, h]
  · simp [ValidateRefreshToken, h]

/-- Witness for the amended C3 at a concrete RS256-declaring token. -/
theorem C3_amended_witness :
    ValidateAccessToken defaultTM 1
        (.tok ⟨.RS256, hs384Claims, hmacSign .RS256 "k" hs384Claims⟩) =
      .error .unexpectedSigningMethod ∧
    ValidateRefreshToken defaultTM 1
        (.tok ⟨.RS256, hs384Claims, hmacSign .RS256 "k" hs384Claims⟩) =
      .error .unexpectedSigningMethod :=
  C3_amended_non_hmac_rejected defaultTM 1 _ rfl

/-- Claim C4: at issuance under any configuration, the access token
audience is exactly the configured issuer plus "-users" and the refresh
token audience exactly the issuer plus "-refresh"; the issuer claim equals
the configured issuer; not-before equals issued-at; expires-at equals
issued-at plus the respective configured duration; and at the spec
scenario (issuer "svc") the audiences are ["svc-users"] and
["svc-refresh"]. -/
theorem C4_issuance_claims (tm : TokenManager) (now : Int) (u : UUID) :
    (GenerateAccessToken tm now u).claims.reg.audience = [tm.config.Issuer ++ "-users"] ∧
    (GenerateRefreshToken tm now u).claims.reg.audience = [tm.config.Issuer ++ "-refresh"] ∧
    (GenerateAccessToken tm now u).claims.reg.issuer = tm.config.Issuer ∧
    (GenerateRefreshToken tm now u).claims.reg.issuer = tm.config.Issuer ∧
    (GenerateAccessToken tm now u).claims.userID = u ∧
    (GenerateRefreshToken tm now u).claims.userID = u ∧
    (GenerateAccessToken tm now u).claims.reg.notBefore =
      (GenerateAccessToken tm now u).claims.reg.issuedAt ∧
    (GenerateRefreshToken tm now u).claims.reg.notBefore =
      (GenerateRefreshToken tm now u).claims.reg.issuedAt ∧
    (GenerateAccessToken tm now u).claims.reg.expiresAt =
      (GenerateAccessToken tm now u).claims.reg.issuedAt + tm.config.ExpirationTime ∧
    (GenerateRefreshToken tm now u).claims.reg.expiresAt =
      (GenerateRefreshToken tm now u).claims.reg.issuedAt + tm.config.RefreshDuration ∧
    (GenerateAccessToken svcTM 0 ⟨1⟩).claims.reg.audience = ["svc-users"] ∧
    (GenerateRefreshToken svcTM 0 ⟨1⟩).claims.reg.audience = ["svc-refresh"] :=
  ⟨rfl, rfl, rfl, rfl, rfl, rfl, rfl, rfl, rfl, rfl, rfl, rfl⟩

/-- Inverting the first-space search: a successful break splits the list
around the first space. -/
theorem breakAtSpace_eq_some {l : List Char} {a b : List Char}
    (h : breakAtSpace l = some (a, b)) : l = a ++ ' ' :: b := by
  induction l generalizing a b with
  | nil => simp [breakAtSpace] at h
  | cons c cs ih =>
    by_cases hc : c = ' '
    · subst hc
      simp [breakAtSpace] at h
      obtain ⟨ha, hb⟩ := h
      subst ha
      subst hb
      rfl
    · simp only [breakAtSpace, if_neg hc] at h
      cases hcs : breakAtSpace cs with
      | none => simp [hcs] at h
      | some p =>
        obtain ⟨a', b'⟩ := p
        simp only [hcs] at h
        simp at h
        obtain ⟨ha, hb⟩ := h
        subst ha
        subst hb
        have hcs' := ih hcs
        simp [hcs']

/-- Evaluating the extractor on a header of the literal form
"Bearer " followed by the rest of the string. -/
theorem extractBearerToken_on_bearer_form (t : String) :
    extractBearerToken ("Bearer " ++ t) =
      if t = "" then .error "empty token" else .ok t := rfl

/-- Claim C5 as amended: `extractBearerToken` succeeds exactly on headers
of the form "Bearer " followed by a non-empty remainder, where the split
happens at the first space only — the remainder is returned whole and may
itself contain spaces.  The inputs the spec lists as rejected are indeed
rejected. -/
theorem C5_amended_extract_iff (s t : String) :
    (extractBearerToken s = .ok t ↔ s = "Bearer " ++ t ∧ t ≠ "") ∧
    extractBearerToken "" = .error "invalid bearer token format" ∧
    extractBearerToken "Bearer" = .error "invalid bearer token format" ∧
    extractBearerToken "Bearer " = .error "empty token" ∧
    extractBearerToken "Basic xyz" = .error "invalid bearer token format" := by
  refine ⟨⟨?_, ?_⟩, rfl, rfl, rfl, rfl⟩
  · intro h
    unfold extractBearerToken splitN2Space at h
    cases hbs : breakAtSpace s.data with
    | none => simp [hbs] at h
    | some p =>
      obtain ⟨a, b⟩ := p
      simp only [hbs] at h
      by_cases ha : String.mk a = "Bearer"
      · simp only [ha, ne_eq, not_true_eq_false, if_false] at h
        by_cases hb : String.mk b = ""
        · simp [hb] at h
        · simp only [hb, if_false, if_neg hb] at h
          have hbt : String.mk b = t := by
            simpa using h
          subst hbt
          have hd := breakAtSpace_eq_some hbs
          have ha' : a = "Bearer".data := congrArg String.data ha
          refine ⟨?_, hb⟩
          apply String.ext
          rw [String.data_append, hd, ha']
          rfl
      · simp [ha] at h
  · rintro ⟨hs, ht⟩
    subst hs
    rw [extractBearerToken_on_bearer_form, if_neg ht]

/-- Counterexample to claim C5: the header "Bearer x y" consists of three
whitespace-separated tokens, so by the claim it must be rejected, yet the
extractor accepts it and returns "x y" — the code splits at the first space
only (SplitN limit 2). -/
theorem C5_counterexample_three_tokens_accepted :
    specExactlyTwoBearerTokens "Bearer x y" = false ∧
    specWhitespaceFields "Bearer x y" = ["Bearer", "x", "y"] ∧
    extractBearerToken "Bearer x y" = .ok "x y" :=
  ⟨rfl, rfl, rfl⟩

/-- Claim C6 (code bug): under the invariant-satisfying configuration with
issuer "svc", a refresh token that ValidateRefreshToken accepts for user
⟨1⟩ makes the refresh handler answer 200 with the submitted refresh token
reused, token type "Bearer" and expires_in 3600 — but the freshly generated
access token in the response fails ValidateAccessToken (audience
"svc-users" versus the hardcoded "go-service-api-users"), contradicting the
claim that its validated subject equals the user. -/
theorem C6_refresh_flow_access_token_fails_validation :
    ValidateRefreshToken svcTM 1 (.tok craftedRefreshToken) = .ok craftedRefreshClaims ∧
    RefreshTokenHandler svcTM 1 (.valid ⟨.tok craftedRefreshToken⟩) =
      { status := 200
        body := .pair
          { AccessToken := .tok (GenerateAccessToken svcTM 1 ⟨1⟩)
            RefreshToken := .tok craftedRefreshToken
            TokenType := "Bearer"
            ExpiresIn := 3600 } } ∧
    ValidateAccessToken svcTM 2 (.tok (GenerateAccessToken svcTM 1 ⟨1⟩)) =
      .error .invalidAudience :=
  ⟨rfl, rfl, rfl⟩

/-- Claim C7: a request without an Authorization header is rejected with
status 401, error slug "unauthorized", message "missing authorization
header" and code 401, leaving the request-scoped state unchanged. -/
theorem C7_missing_header_401 (tm : TokenManager) (now : Int) (req : Request)
    (h : req.authHeader = none) :
    AuthMiddleware tm now req =
      .reject
        { status := 401
          body := .err
            { Error := "unauthorized"
              Message := "missing authorization header"
              Code := 401 } }
        req.locals := by
  simp [AuthMiddleware, h, AuthErrorResponse]

/-- Witness for C7 at a concrete header-less request. -/
theorem C7_witness :
    AuthMiddleware defaultTM 0
        { authHeader := none, locals := [], wireOf := fun s => .junk s } =
      .reject ⟨401, .err ⟨"unauthorized", "missing authorization header", 401⟩⟩ [] :=
  C7_missing_header_401 defaultTM 0 _ rfl

/-- Claim C8 (code bug): the request carries "Authorization: Bearer T"
where "T" encodes the token generated by GenerateAccessToken for user ⟨1⟩
under the manager of the middleware itself (issuer "svc"), still unexpired at
validation time 1 — yet the middleware rejects with 401 instead of storing
the user id and proceeding, because ValidateAccessToken checks the audience
against the constant "go-service-api-users"; consequently
GetUserIDFromContext finds nothing. -/
theorem C8_middleware_rejects_fresh_token_nondefault_issuer :
    svcBearerReq.authHeader = some "Bearer T" ∧
    extractBearerToken "Bearer T" = .ok "T" ∧
    svcBearerReq.wireOf "T" = .tok (GenerateAccessToken svcTM 0 ⟨1⟩) ∧
    (GenerateAccessToken svcTM 0 ⟨1⟩).claims.reg.expiresAt = 3600 ∧
    AuthMiddleware svcTM 1 svcBearerReq =
      .reject (AuthErrorResponse "invalid or expired access token") [] ∧
    GetUserIDFromContext (AuthMiddleware svcTM 1 svcBearerReq).finalLocals =
      (UUID.zero, some "user_id not found in context") :=
  ⟨rfl, rfl, rfl, rfl, rfl, rfl⟩

/-- Claim C9: GetUserIDFromContext is total and returns an error in exactly
two distinguishable cases — the key "user_id" absent, or the stored value
not of the UUID type — and in both error cases the returned identity is the
zero UUID; when a UUID is stored it is returned without error. -/
theorem C9_get_user_id_cases (locals : Locals) :
    (localsGet locals "user_id" = none →
      GetUserIDFromContext locals = (UUID.zero, some "user_id not found in context")) ∧
    (∀ u, localsGet locals "user_id" = some (.vUUID u) →
      GetUserIDFromContext locals = (u, none)) ∧
    (∀ v, localsGet locals "user_id" = some v → (∀ u, v ≠ GoVal.vUUID u) →
      GetUserIDFromContext locals = (UUID.zero, some "invalid user_id type in context")) ∧
    ("user_id not found in context" ≠ "invalid user_id type in context") := by
  refine ⟨?_, ?_, ?_, by decide⟩
  · intro h
    simp [GetUserIDFromContext, h]
  · intro u h
    simp [GetUserIDFromContext, h]
  · intro v h hv
    cases v with
    | vUUID u => exact absurd rfl (hv u)
    | vStr s => simp [GetUserIDFromContext, h]
    | vInt n => simp [GetUserIDFromContext, h]

/-- Witness for C9 covering the three cases at concrete stores. -/
theorem C9_witness :
    GetUserIDFromContext [] = (UUID.zero, some "user_id not found in context") ∧
    GetUserIDFromContext [("user_id", .vUUID ⟨5⟩)] = (⟨5⟩, none) ∧
    GetUserIDFromContext [("user_id", .vStr "x")] =
      (UUID.zero, some "invalid user_id type in context") :=
  ⟨(C9_get_user_id_cases []).1 rfl,
   (C9_get_user_id_cases [("user_id", .vUUID ⟨5⟩)]).2.1 ⟨5⟩ rfl,
   (C9_get_user_id_cases [("user_id", .vStr "x")]).2.2.1 (.vStr "x") rfl
     (fun _ h => GoVal.noConfusion h)⟩

/-- The middleware either rejects leaving the store unchanged, or the
extraction and validation both succeed and it proceeds with the validated
subject stored under "user_id". -/
theorem authMiddleware_cases (tm : TokenManager) (now : Int) (req : Request) :
    (∃ resp, AuthMiddleware tm now req = .reject resp req.locals) ∨
    (∃ ts claims, extractBearerToken (req.authHeader.getD "") = .ok ts ∧
      ValidateAccessToken tm now (req.wireOf ts) = .ok claims ∧
      AuthMiddleware tm now req =
        .proceed (("user_id", .vUUID claims.userID) :: req.locals)) := by
  by_cases hh : req.authHeader.getD "" = ""
  · left
    refine ⟨AuthErrorResponse "missing authorization header", ?_⟩
    simp [AuthMiddleware, hh]
  · cases he : extractBearerToken (req.authHeader.getD "") with
    | error e =>
      left
      refine ⟨AuthErrorResponse "invalid authorization header format", ?_⟩
      simp [AuthMiddleware, hh, he]
    | ok ts =>
      cases hv : ValidateAccessToken tm now (req.wireOf ts) with
      | error e =>
        left
        refine ⟨AuthErrorResponse "invalid or expired access token", ?_⟩
        simp [AuthMiddleware, hh, he, hv]
      | ok claims =>
        right
        refine ⟨ts, claims, rfl, hv, ?_⟩
        simp [AuthMiddleware, hh, he, hv, localsSet]

/-- Claim C10: on a request whose store does not yet hold "user_id", a
rejection leaves the store unchanged (and hence without "user_id"), the
final store holds "user_id" exactly when the downstream handler is
invoked, and when it is invoked there are an extracted token string and
validated claims whose subject is what was stored. -/
theorem C10_rejection_frame (tm : TokenManager) (now : Int) (req : Request)
    (h : localsGet req.locals "user_id" = none) :
    ((AuthMiddleware tm now req).isProceed = false →
      (AuthMiddleware tm now req).finalLocals = req.locals) ∧
    (localsGet (AuthMiddleware tm now req).finalLocals "user_id" ≠ none ↔
      (AuthMiddleware tm now req).isProceed = true) ∧
    ((AuthMiddleware tm now req).isProceed = true →
      ∃ ts claims, extractBearerToken (req.authHeader.getD "") = .ok ts ∧
        ValidateAccessToken tm now (req.wireOf ts) = .ok claims ∧
        localsGet (AuthMiddleware tm now req).finalLocals "user_id" =
          some (.vUUID claims.userID)) := by
  rcases authMiddleware_cases tm now req with ⟨resp, hr⟩ | ⟨ts, claims, he, hv, hp⟩
  · rw [hr]
    refine ⟨fun _ => rfl, ?_, ?_⟩
    · simp [MwOutcome.finalLocals, MwOutcome.isProceed, h]
    · intro hcontra
      simp [MwOutcome.isProceed] at hcontra
  · rw [hp]
    refine ⟨fun hc => by simp [MwOutcome.isProceed] at hc, ?_,
      fun _ => ⟨ts, claims, he, hv, ?_⟩⟩
    · simp [MwOutcome.finalLocals, MwOutcome.isProceed, localsGet]
    · simp [MwOutcome.finalLocals, localsGet]

/-- Witness for C10 at a concrete header-less request: the middleware
rejects and the store stays empty. -/
theorem C10_witness :
    (AuthMiddleware defaultTM 0
        { authHeader := none, locals := [], wireOf := fun s => .junk s }).finalLocals = [] :=
  (C10_rejection_frame defaultTM 0
      { authHeader := none, locals := [], wireOf := fun s => .junk s } rfl).1 rfl
